import Mathlib

/-!
Verification of the quiz session state machine of the "sansu quest" app.

The definitions below are a shallow embedding of the TypeScript source:
`src/types.ts` (data model), `src/App.tsx` (the `App` component's state
machine: `handleFileUpload`, `handleAnswer`, `startRetryRound`,
`resetGame`, the persistence effect and the render-time button guards),
and the sound service (`SoundService.init`, `playSuccess`, `playFailure`).
JavaScript numbers that hold answer indices are modelled as `Int`,
the cursor `currentIndex` (only ever 0 or an increment) as `Nat`,
fallible JavaScript code (property access on `undefined`, `new` on a
missing constructor) as `Option`/`Except`.
-/

namespace SansuQuest

/-- `AppStatus` enum from `src/types.ts`. -/
inductive AppStatus where
  | IDLE
  | LOADING
  | PLAYING
  | FEEDBACK
  | RETRY_SUMMARY
  | FINISHED
deriving DecidableEq, Repr

/-- `MathProblem` interface from `src/types.ts`. -/
structure MathProblem where
  id : String
  question : String
  options : List String
  answerIndex : Int
deriving DecidableEq, Repr

/-- `GameState` interface from `src/types.ts`. -/
structure GameState where
  problems : List MathProblem
  currentIndex : Nat
  wrongProblemIds : List String
  status : AppStatus
  isCorrect : Option Bool
deriving DecidableEq, Repr

/-- The canonical empty state (`App.tsx` initial state and `resetGame`). -/
def initialGameState : GameState :=
  { problems := []
    currentIndex := 0
    wrongProblemIds := []
    status := AppStatus.IDLE
    isCorrect := none }

/-- `resetGame` from `App.tsx`: unconditionally install the empty state. -/
def resetGame : GameState := initialGameState

/-- The first `setGameState` of `handleFileUpload`: spread previous state,
status becomes LOADING. -/
def uploadStart (s : GameState) : GameState :=
  { s with status := AppStatus.LOADING }

/-- The success branch of `handleFileUpload`: a fresh state built from the
generated problems. -/
def uploadSuccess (ps : List MathProblem) : GameState :=
  { problems := ps
    currentIndex := 0
    wrongProblemIds := []
    status := AppStatus.PLAYING
    isCorrect := none }

/-- The synchronous part of `handleAnswer` in `App.tsx`. Reading
`gameState.problems[gameState.currentIndex]` yields `undefined` when the
index is out of range, and the subsequent `.answerIndex` access throws:
modelled by `none`. Otherwise the judgment `choiceIndex ===
currentProblem.answerIndex` is taken and the state updated by spread. -/
def handleAnswerSync (s : GameState) (choiceIndex : Int) : Option GameState :=
  match s.problems[s.currentIndex]? with
  | none => none
  | some currentProblem =>
    let correct := choiceIndex == currentProblem.answerIndex
    some { s with
            status := AppStatus.FEEDBACK
            isCorrect := some correct
            wrongProblemIds :=
              if correct then s.wrongProblemIds
              else s.wrongProblemIds ++ [currentProblem.id] }

/-- The `setTimeout` callback of `handleAnswer`: functional update on the
state current at fire time. -/
def timerStep (prev : GameState) : GameState :=
  let nextIndex := prev.currentIndex + 1
  { prev with
      status := if prev.problems.length ≤ nextIndex
                then AppStatus.RETRY_SUMMARY else AppStatus.PLAYING
      currentIndex := nextIndex
      isCorrect := none }

/-- `startRetryRound` from `App.tsx`. -/
def startRetryRound (s : GameState) : GameState :=
  let nextProblems := s.problems.filter (fun p => s.wrongProblemIds.contains p.id)
  if nextProblems.length = 0 then
    { s with status := AppStatus.FINISHED }
  else
    { problems := nextProblems
      currentIndex := 0
      wrongProblemIds := []
      status := AppStatus.PLAYING
      isCorrect := none }

/-- One item of the parsed generator payload in `handleFileUpload`. A
field that is absent (or, for `options` / `answerIndex`, fails the code's
`Array.isArray` / `typeof number` test) is `none`; a present falsy
question (empty string) is `some ""`. -/
structure RawProblem where
  question : Option String
  options : Option (List String)
  answerIndex : Option Int
deriving DecidableEq, Repr

/-- The placeholder shown when the generator item has no usable question. -/
def missingQuestionText : String := "もんだいを取得できませんでした"

/-- `p.question || "..."`: falsy (absent or empty) becomes the default. -/
def coerceQuestion : Option String → String
  | none => missingQuestionText
  | some q => if q == "" then missingQuestionText else q

/-- `Array.isArray(p.options) ? p.options : ["?", "?", "?"]`. -/
def coerceOptions : Option (List String) → List String
  | none => ["?", "?", "?"]
  | some xs => xs

/-- `typeof p.answerIndex === 'number' ? p.answerIndex : 0`. -/
def coerceAnswerIndex : Option Int → Int
  | none => 0
  | some n => n

/-- The per-item coercion in `handleFileUpload`'s `.map`. -/
def coerceProblem (p : RawProblem) (id : String) : MathProblem :=
  { id := id
    question := coerceQuestion p.question
    options := coerceOptions p.options
    answerIndex := coerceAnswerIndex p.answerIndex }

/-- The whole `generatedProblems` construction: each item is coerced and
given the synthesized id `prob-` + `Date.now()` + `-` + ordinal. -/
def buildProblems (raw : List RawProblem) (now : Nat) : List MathProblem :=
  raw.enum.map (fun ip =>
    coerceProblem ip.2 ("prob-" ++ toString now ++ "-" ++ toString ip.1))

/-- The pattern (first list) matches the front of the second list. -/
def leadMatch : List Char → List Char → Bool
  | [], _ => true
  | _ :: _, [] => false
  | a :: as, b :: bs => a == b && leadMatch as bs

/-- The pattern occurs somewhere in the second list. -/
def occursIn (pat : List Char) : List Char → Bool
  | [] => leadMatch pat []
  | c :: rest => leadMatch pat (c :: rest) || occursIn pat rest

/-- JavaScript `String.prototype.includes`, as used on the error message. -/
def stringIncludes (s pat : String) : Bool := occursIn pat.data s.data

/-- The error-message fragment `handleFileUpload` tests for to detect an
invalid/not-found API key. -/
def keyNotFoundFragment : String := "Requested entity was not found"

/-- The `App` component state relevant to upload failure: the game state
plus the `needsKeySelection` flag. -/
structure AppState where
  game : GameState
  needsKeySelection : Bool
deriving DecidableEq, Repr

/-- The `catch` block of `handleFileUpload`: when the message contains the
key-not-found fragment, `setNeedsKeySelection(true)`; in every case the
game state returns to IDLE by spread. -/
def handleUploadCatch (a : AppState) (errorMessage : String) : AppState :=
  let a1 := if stringIncludes errorMessage keyNotFoundFragment
            then { a with needsKeySelection := true } else a
  { a1 with game := { a1.game with status := AppStatus.IDLE } }

/-- A whole failing upload: the LOADING transition followed by the catch
block. -/
def failedUpload (a : AppState) (errorMessage : String) : AppState :=
  handleUploadCatch { a with game := uploadStart a.game } errorMessage

/-- The answer buttons are rendered only in the branch of `App`'s render
chain reached when no key selection is pending and the status is PLAYING
or FEEDBACK. -/
def answerButtonsShown (a : AppState) : Bool :=
  !a.needsKeySelection &&
    (a.game.status == AppStatus.PLAYING || a.game.status == AppStatus.FEEDBACK)

/-- Each answer button carries `disabled={gameState.status === AppStatus.FEEDBACK}`. -/
def answerButtonDisabled (a : AppState) : Bool :=
  a.game.status == AppStatus.FEEDBACK

/-- An answer can be submitted through the UI: the buttons are on screen
and enabled. -/
def answerSubmittable (a : AppState) : Bool :=
  answerButtonsShown a && !answerButtonDisabled a

/-- `SoundService.init` from the sound service: if `this.ctx` is unset it
evaluates `new (window.AudioContext || webkitAudioContext)()`; when no
constructor exists that expression throws a `TypeError`, modelled as
`Except.error`. The context handle is abstract (`Unit`). -/
def soundInit (ctorAvailable : Bool) (ctx : Option Unit) : Except String (Option Unit) :=
  match ctx with
  | none =>
    if ctorAvailable then Except.ok (some ())
    else Except.error "TypeError: constructor is not defined"
  | some c => Except.ok (some c)

/-- `SoundService.playSuccess`: calls `init()` (whose throw propagates),
then returns early when `this.ctx` is still unset, otherwise plays the
arpeggio on the context. -/
def playSuccess (ctorAvailable : Bool) (ctx : Option Unit) : Except String (Option Unit) :=
  match soundInit ctorAvailable ctx with
  | Except.error e => Except.error e
  | Except.ok none => Except.ok none
  | Except.ok (some c) => Except.ok (some c)

/-- `SoundService.playFailure`: same control flow as `playSuccess` with
the downward-sweep tone. -/
def playFailure (ctorAvailable : Bool) (ctx : Option Unit) : Except String (Option Unit) :=
  match soundInit ctorAvailable ctx with
  | Except.error e => Except.error e
  | Except.ok none => Except.ok none
  | Except.ok (some c) => Except.ok (some c)

/-- JSON values, the tree level of `JSON.stringify` / `JSON.parse`. The
string encoding and decoding of such a tree is the platform's inverse
pair and stays outside the model. -/
inductive Json where
  | null : Json
  | bool (b : Bool) : Json
  | num (n : Int) : Json
  | str (s : String) : Json
  | arr (items : List Json) : Json
  | obj (fields : List (String × Json)) : Json
deriving Repr

/-- The string value each `AppStatus` member serializes to. -/
def statusToString : AppStatus → String
  | AppStatus.IDLE => "IDLE"
  | AppStatus.LOADING => "LOADING"
  | AppStatus.PLAYING => "PLAYING"
  | AppStatus.FEEDBACK => "FEEDBACK"
  | AppStatus.RETRY_SUMMARY => "RETRY_SUMMARY"
  | AppStatus.FINISHED => "FINISHED"

/-- `JSON.stringify` of one problem object. -/
def problemToJson (p : MathProblem) : Json :=
  Json.obj [("id", Json.str p.id),
            ("question", Json.str p.question),
            ("options", Json.arr (p.options.map Json.str)),
            ("answerIndex", Json.num p.answerIndex)]

/-- `JSON.stringify` of the nullable `isCorrect` field. -/
def isCorrectToJson : Option Bool → Json
  | none => Json.null
  | some b => Json.bool b

/-- `JSON.stringify(gameState)`: the snapshot written to session storage
after every state change. -/
def gameStateToJson (s : GameState) : Json :=
  Json.obj [("problems", Json.arr (s.problems.map problemToJson)),
            ("currentIndex", Json.num (Int.ofNat s.currentIndex)),
            ("wrongProblemIds", Json.arr (s.wrongProblemIds.map Json.str)),
            ("status", Json.str (statusToString s.status)),
            ("isCorrect", isCorrectToJson s.isCorrect)]

/-- Property lookup on a parsed JSON object. -/
def getField (fields : List (String × Json)) (k : String) : Option Json :=
  match fields.find? (fun kv => kv.1 == k) with
  | none => none
  | some kv => some kv.2

/-- Read back a JSON string. -/
def jsonToString? : Json → Option String
  | Json.str s => some s
  | _ => none

/-- Map a fallible reader over a list, failing if any element fails. -/
def mapOpt (f : α → Option β) : List α → Option (List β)
  | [] => some []
  | a :: as =>
    match f a, mapOpt f as with
    | some b, some bs => some (b :: bs)
    | _, _ => none

/-- A non-negative JSON number read back as a cursor value. -/
def intToNat : Int → Option Nat
  | Int.ofNat m => some m
  | Int.negSucc _ => none

/-- Read back one problem object from its snapshot fields. -/
def jsonToProblem (j : Json) : Option MathProblem :=
  match j with
  | Json.obj fs =>
    match getField fs "id", getField fs "question",
          getField fs "options", getField fs "answerIndex" with
    | some (Json.str id), some (Json.str q),
      some (Json.arr opts), some (Json.num ai) =>
      match mapOpt jsonToString? opts with
      | some os => some { id := id, question := q, options := os, answerIndex := ai }
      | none => none
    | _, _, _, _ => none
  | _ => none

/-- Read back the nullable `isCorrect` field. -/
def jsonToIsCorrect : Json → Option (Option Bool)
  | Json.null => some none
  | Json.bool b => some (some b)
  | _ => none

/-- The restore path of the `useState` initializer: the parsed snapshot is
spread into the new state and `status` is forcibly overwritten with IDLE
(the persisted status field is ignored). -/
def restoreGameState (j : Json) : Option GameState :=
  match j with
  | Json.obj fs =>
    match getField fs "problems", getField fs "currentIndex",
          getField fs "wrongProblemIds", getField fs "isCorrect" with
    | some (Json.arr ps), some (Json.num ci), some (Json.arr ws), some ic =>
      match mapOpt jsonToProblem ps, intToNat ci,
            mapOpt jsonToString? ws, jsonToIsCorrect ic with
      | some problems, some currentIndex, some wrong, some isC =>
        some { problems := problems
               currentIndex := currentIndex
               wrongProblemIds := wrong
               status := AppStatus.IDLE
               isCorrect := isC }
      | _, _, _, _ => none
    | _, _, _, _ => none
  | _ => none

/-- The controller state together with the number of `setTimeout`
callbacks scheduled by `handleAnswer` and not yet fired. Nothing in the
code cancels such a timer. -/
structure SysState where
  game : GameState
  pending : Nat
deriving DecidableEq, Repr

/-- One event processed by the controller, exactly as the handlers in
`App.tsx` mutate the state. An answer submission only changes state when
the current-problem read succeeds (otherwise the handler throws before
`setGameState`), and it schedules one timer; firing a timer consumes one
and applies the functional update to the state current at fire time;
`resetGame` does not cancel pending timers. -/
inductive Step : SysState → SysState → Prop where
  | upload_start (s : SysState) :
      Step s ⟨uploadStart s.game, s.pending⟩
  | upload_ok (s : SysState) (raw : List RawProblem) (now : Nat) :
      Step s ⟨uploadSuccess (buildProblems raw now), s.pending⟩
  | upload_err (s : SysState) :
      Step s ⟨{ s.game with status := AppStatus.IDLE }, s.pending⟩
  | answer (s : SysState) (k : Int) (g : GameState)
      (h : handleAnswerSync s.game k = some g) :
      Step s ⟨g, s.pending + 1⟩
  | timer_fire (s : SysState) (h : 0 < s.pending) :
      Step s ⟨timerStep s.game, s.pending - 1⟩
  | retry_start (s : SysState) :
      Step s ⟨startRetryRound s.game, s.pending⟩
  | reset (s : SysState) :
      Step s ⟨resetGame, s.pending⟩

/-- A state the controller can be in after any sequence of events from
the fresh initial state. -/
def ReachableState (s : SysState) : Prop :=
  Relation.ReflTransGen Step ⟨initialGameState, 0⟩ s

/-- Scenario A/B problem: id "a", correct option at index 1. -/
def probA : MathProblem :=
  { id := "a", question := "1+1?", options := ["1", "2", "3"], answerIndex := 1 }

/-- Scenario A/B start state: one problem, PLAYING at index 0. -/
def stateA : GameState :=
  { problems := [probA]
    currentIndex := 0
    wrongProblemIds := []
    status := AppStatus.PLAYING
    isCorrect := none }

/-- Scenario B end state: problem "a" answered wrong, round over. -/
def stateB : GameState :=
  { problems := [probA]
    currentIndex := 1
    wrongProblemIds := ["a"]
    status := AppStatus.RETRY_SUMMARY
    isCorrect := none }

/-- A FEEDBACK state as produced by a wrong answer on `stateA`. -/
def stateFb : GameState :=
  { problems := [probA]
    currentIndex := 0
    wrongProblemIds := ["a"]
    status := AppStatus.FEEDBACK
    isCorrect := some false }

/-- A well-formed raw generator item. -/
def rawA : RawProblem :=
  { question := some "1+1?", options := some ["1", "2", "3"], answerIndex := some 1 }

/-- Scenario F raw generator item: short options, out-of-range index. -/
def scenarioF : RawProblem :=
  { question := some "2+2?", options := some ["3", "4"], answerIndex := some 5 }

/-- Reading back a serialized string list succeeds elementwise. -/
theorem mapOpt_map_of_inv {α β : Type} (f : α → β) (g : β → Option α)
    (h : ∀ a, g (f a) = some a) : ∀ xs : List α, mapOpt g (xs.map f) = some xs := by
  intro xs
  induction xs with
  | nil => rfl
  | cons a as ih => simp [mapOpt, h, ih]

/-- A serialized problem object reads back to itself. -/
theorem jsonToProblem_problemToJson (p : MathProblem) :
    jsonToProblem (problemToJson p) = some p := by
  obtain ⟨id, q, opts, ai⟩ := p
  have hopts : mapOpt jsonToString? (opts.map Json.str) = some opts :=
    mapOpt_map_of_inv Json.str jsonToString? (fun a => rfl) opts
  simp [jsonToProblem, problemToJson, getField, List.find?, hopts]

/-- A serialized game state reads back to itself with status forced IDLE. -/
theorem restore_gameStateToJson (s : GameState) :
    restoreGameState (gameStateToJson s) = some { s with status := AppStatus.IDLE } := by
  obtain ⟨problems, ci, wrong, st, isC⟩ := s
  have hp : mapOpt jsonToProblem (problems.map problemToJson) = some problems :=
    mapOpt_map_of_inv problemToJson jsonToProblem jsonToProblem_problemToJson problems
  have hw : mapOpt jsonToString? (wrong.map Json.str) = some wrong :=
    mapOpt_map_of_inv Json.str jsonToString? (fun a => rfl) wrong
  cases isC <;>
    simp [restoreGameState, gameStateToJson, getField, List.find?,
          intToNat, jsonToIsCorrect, isCorrectToJson, hp, hw]

/-- C1: in a PLAYING state whose cursor points at a problem, `handleAnswer(k)`
sets `isCorrect` to the judgment `k == answerIndex` of that problem, moves the
status to FEEDBACK, and appends exactly the current problem's id to
`wrongProblemIds` when the judgment is false, leaving the list unchanged when
it is true. -/
theorem sansu_C1_handleAnswer_judgment (s : GameState) (k : Int) (p : MathProblem)
    (_hstatus : s.status = AppStatus.PLAYING)
    (hidx : s.problems[s.currentIndex]? = some p) :
    handleAnswerSync s k =
      some { s with
              status := AppStatus.FEEDBACK
              isCorrect := some (k == p.answerIndex)
              wrongProblemIds :=
                if k == p.answerIndex then s.wrongProblemIds
                else s.wrongProblemIds ++ [p.id] } := by
  simp [handleAnswerSync, hidx]

/-- C1 witness: Scenario A, answering 1 on `stateA`. -/
theorem sansu_C1_handleAnswer_judgment_witness :
    handleAnswerSync stateA 1 =
      some { stateA with
              status := AppStatus.FEEDBACK
              isCorrect := some ((1 : Int) == probA.answerIndex)
              wrongProblemIds :=
                if (1 : Int) == probA.answerIndex then stateA.wrongProblemIds
                else stateA.wrongProblemIds ++ [probA.id] } :=
  sansu_C1_handleAnswer_judgment stateA 1 probA (by decide) (by decide)

/-- C2: the delayed transition increments the cursor, clears `isCorrect`,
keeps `problems` and `wrongProblemIds`, and lands in RETRY_SUMMARY exactly
when the incremented cursor has reached the end of the round, in PLAYING
otherwise. -/
theorem sansu_C2_delayed_advance (s : GameState) :
    (timerStep s).currentIndex = s.currentIndex + 1 ∧
    (timerStep s).isCorrect = none ∧
    (timerStep s).problems = s.problems ∧
    (timerStep s).wrongProblemIds = s.wrongProblemIds ∧
    (s.problems.length ≤ s.currentIndex + 1 →
      (timerStep s).status = AppStatus.RETRY_SUMMARY) ∧
    (s.currentIndex + 1 < s.problems.length →
      (timerStep s).status = AppStatus.PLAYING) := by
  refine ⟨rfl, rfl, rfl, rfl, ?_, ?_⟩
  · intro h
    simp [timerStep, h]
  · intro h
    simp [timerStep, Nat.not_le.mpr h]

/-- C2 witness: after answering the single problem of Scenario A, the delayed
transition lands in RETRY_SUMMARY with cursor 1. -/
theorem sansu_C2_delayed_advance_witness :
    (timerStep stateFb).status = AppStatus.RETRY_SUMMARY ∧
    (timerStep stateFb).currentIndex = stateFb.currentIndex + 1 :=
  ⟨(sansu_C2_delayed_advance stateFb).2.2.2.2.1 (by decide),
   (sansu_C2_delayed_advance stateFb).1⟩

/-- C5 counterexample: on the FEEDBACK state `stateFb`, `handleAnswer(0)` is
not a no-op — it appends the current problem's id a second time. -/
theorem sansu_C5_not_noop_cex :
    handleAnswerSync stateFb 0 =
      some { stateFb with wrongProblemIds := ["a", "a"], isCorrect := some false } ∧
    handleAnswerSync stateFb 0 ≠ some stateFb := by
  constructor
  · decide
  · decide

/-- C5 amended: the rejection of answers outside PLAYING lives in the UI —
answer buttons are only rendered when the status is PLAYING or FEEDBACK and
are disabled exactly in FEEDBACK, so an answer is submittable through the UI
only when status is exactly PLAYING; `handleAnswer` itself checks no status
and, invoked directly with the cursor on a problem, re-judges it in any
status. -/
theorem sansu_C5_submission_guard (a : AppState) (k : Int) (p : MathProblem) :
    (answerSubmittable a = true → a.game.status = AppStatus.PLAYING) ∧
    (a.game.problems[a.game.currentIndex]? = some p →
      handleAnswerSync a.game k =
        some { a.game with
                status := AppStatus.FEEDBACK
                isCorrect := some (k == p.answerIndex)
                wrongProblemIds :=
                  if k == p.answerIndex then a.game.wrongProblemIds
                  else a.game.wrongProblemIds ++ [p.id] }) := by
  constructor
  · intro h
    simp only [answerSubmittable, answerButtonsShown, answerButtonDisabled,
               Bool.and_eq_true, Bool.or_eq_true, Bool.not_eq_eq_eq_not,
               Bool.not_true, beq_iff_eq] at h
    rcases h with ⟨⟨hnk, hst | hst⟩, hfb⟩
    · exact hst
    · rw [hst] at hfb
      simp at hfb
  · intro h
    simp [handleAnswerSync, h]

/-- C5 witness: on `stateA` (PLAYING) the buttons are enabled and
`handleAnswer(0)` performs the wrong-answer update. -/
theorem sansu_C5_submission_guard_witness :
    (⟨stateA, false⟩ : AppState).game.status = AppStatus.PLAYING ∧
    handleAnswerSync stateA 0 =
      some { stateA with
              status := AppStatus.FEEDBACK
              isCorrect := some ((0 : Int) == probA.answerIndex)
              wrongProblemIds :=
                if (0 : Int) == probA.answerIndex then stateA.wrongProblemIds
                else stateA.wrongProblemIds ++ [probA.id] } :=
  ⟨(sansu_C5_submission_guard ⟨stateA, false⟩ 0 probA).1 (by decide),
   (sansu_C5_submission_guard ⟨stateA, false⟩ 0 probA).2 (by decide)⟩

/-- C6 counterexample: the Scenario F item is not repaired — its 2-element
options array and out-of-range answer index 5 survive the coercion. -/
theorem sansu_C6_no_repair_cex :
    (coerceProblem scenarioF "prob-0-0").options.length = 2 ∧
    (coerceProblem scenarioF "prob-0-0").answerIndex = 5 ∧
    ¬((coerceProblem scenarioF "prob-0-0").options.length = 3 ∧
      (coerceProblem scenarioF "prob-0-0").answerIndex = 0) := by
  decide

/-- C6 amended: the coercion is per-field and shallow — a missing (or empty)
question becomes the default text, a non-array options value becomes the
3-element placeholder but an options array of any length is kept as-is, and a
non-number answerIndex becomes 0 but any numeric value is kept even when out
of range; in particular the Scenario F item keeps options length 2 and
answerIndex 5, and the round built from it still starts in PLAYING. -/
theorem sansu_C6_coercion (q : String) (opts : List String) (ai : Int) (id : String) :
    (coerceProblem { question := none, options := some opts, answerIndex := some ai } id).question
      = missingQuestionText ∧
    (coerceProblem { question := some q, options := none, answerIndex := some ai } id).options
      = ["?", "?", "?"] ∧
    (coerceProblem { question := some q, options := some opts, answerIndex := none } id).answerIndex
      = 0 ∧
    (coerceProblem { question := some q, options := some opts, answerIndex := some ai } id).options
      = opts ∧
    (coerceProblem { question := some q, options := some opts, answerIndex := some ai } id).answerIndex
      = ai ∧
    (uploadSuccess (buildProblems [scenarioF] 0)).status = AppStatus.PLAYING ∧
    (buildProblems [scenarioF] 0).map (fun p => (p.options.length, p.answerIndex))
      = [(2, 5)] := by
  refine ⟨rfl, rfl, rfl, rfl, rfl, rfl, by decide⟩

/-- C7: every failing generation call lands the game state in IDLE, and when
the error message contains the key-not-found fragment the
`needsKeySelection` flag additionally becomes true. -/
theorem sansu_C7_failure_recovery (a : AppState) (msg : String) :
    (handleUploadCatch a msg).game.status = AppStatus.IDLE ∧
    (stringIncludes msg keyNotFoundFragment = true →
      (handleUploadCatch a msg).needsKeySelection = true) := by
  cases hc : stringIncludes msg keyNotFoundFragment <;>
    simp [handleUploadCatch, hc]

/-- C7 witness: Scenario E, a key-not-found failure from the empty state. -/
theorem sansu_C7_failure_recovery_witness :
    (handleUploadCatch ⟨initialGameState, false⟩ keyNotFoundFragment).game.status
      = AppStatus.IDLE ∧
    (handleUploadCatch ⟨initialGameState, false⟩ keyNotFoundFragment).needsKeySelection
      = true :=
  ⟨(sansu_C7_failure_recovery ⟨initialGameState, false⟩ keyNotFoundFragment).1,
   (sansu_C7_failure_recovery ⟨initialGameState, false⟩ keyNotFoundFragment).2 (by decide)⟩

/-- C9: with no audio-context constructor available and no context yet
created, both play operations propagate the TypeError thrown by `init`
instead of silently no-opping. -/
theorem sansu_C9_play_throws_without_audio :
    playSuccess false none = Except.error "TypeError: constructor is not defined" ∧
    playFailure false none = Except.error "TypeError: constructor is not defined" :=
  ⟨rfl, rfl⟩

/-- C10: a failing upload changes only the status field — `problems`,
`currentIndex`, `wrongProblemIds` and `isCorrect` survive both the LOADING
transition and the catch block, and the final status is IDLE. -/
theorem sansu_C10_failed_upload_frame (a : AppState) (msg : String) :
    (uploadStart a.game).problems = a.game.problems ∧
    (uploadStart a.game).currentIndex = a.game.currentIndex ∧
    (uploadStart a.game).wrongProblemIds = a.game.wrongProblemIds ∧
    (uploadStart a.game).isCorrect = a.game.isCorrect ∧
    (failedUpload a msg).game.problems = a.game.problems ∧
    (failedUpload a msg).game.currentIndex = a.game.currentIndex ∧
    (failedUpload a msg).game.wrongProblemIds = a.game.wrongProblemIds ∧
    (failedUpload a msg).game.isCorrect = a.game.isCorrect ∧
    (failedUpload a msg).game.status = AppStatus.IDLE := by
  cases hc : stringIncludes msg keyNotFoundFragment <;>
    simp [failedUpload, handleUploadCatch, uploadStart, hc]

/-- C3: `startRetryRound` keeps the result an order-preserving subsequence of
the previous round's problems; when the wrong-id filter is empty the status
becomes FINISHED, and otherwise the status becomes PLAYING with cursor 0,
cleared wrong ids, null judgment, and a nonempty problem list consisting of
exactly the previous problems whose id was recorded wrong; the result is
never PLAYING with zero problems. -/
theorem sansu_C3_retry_narrowing (s : GameState) :
    List.Sublist (startRetryRound s).problems s.problems ∧
    (s.problems.filter (fun p => s.wrongProblemIds.contains p.id) = [] →
      (startRetryRound s).status = AppStatus.FINISHED) ∧
    (s.problems.filter (fun p => s.wrongProblemIds.contains p.id) ≠ [] →
      (startRetryRound s).status = AppStatus.PLAYING ∧
      (startRetryRound s).problems ≠ [] ∧
      (startRetryRound s).currentIndex = 0 ∧
      (startRetryRound s).wrongProblemIds = [] ∧
      (startRetryRound s).isCorrect = none ∧
      (startRetryRound s).problems =
        s.problems.filter (fun p => s.wrongProblemIds.contains p.id) ∧
      ∀ p, p ∈ (startRetryRound s).problems ↔
        (p ∈ s.problems ∧ s.wrongProblemIds.contains p.id = true)) ∧
    ((startRetryRound s).status = AppStatus.PLAYING →
      (startRetryRound s).problems ≠ []) := by
  have heq :
      startRetryRound s =
        if (s.problems.filter (fun p => s.wrongProblemIds.contains p.id)).length = 0 then
          { s with status := AppStatus.FINISHED }
        else
          { problems := s.problems.filter (fun p => s.wrongProblemIds.contains p.id)
            currentIndex := 0
            wrongProblemIds := []
            status := AppStatus.PLAYING
            isCorrect := none } := rfl
  cases hsplit : s.problems.filter (fun p => s.wrongProblemIds.contains p.id) with
  | nil =>
    rw [hsplit, if_pos (show ([] : List MathProblem).length = 0 from rfl)] at heq
    refine ⟨?_, fun _ => ?_, fun habs => absurd rfl habs, fun hpl => ?_⟩
    · rw [heq]
    · rw [heq]
    · rw [heq] at hpl
      simp at hpl
  | cons q qs =>
    rw [hsplit, if_neg (by simp)] at heq
    refine ⟨?_, fun habs => absurd habs (List.cons_ne_nil q qs), fun _ => ?_, fun _ => ?_⟩
    · rw [heq, ← hsplit]
      exact List.filter_sublist s.problems
    · refine ⟨?_, ?_, ?_, ?_, ?_, ?_, ?_⟩
      · rw [heq]
      · rw [heq]
        exact List.cons_ne_nil q qs
      · rw [heq]
      · rw [heq]
      · rw [heq]
      · rw [heq]
      · intro p
        rw [heq]
        show p ∈ q :: qs ↔ _
        rw [← hsplit]
        exact List.mem_filter
    · rw [heq]
      exact List.cons_ne_nil q qs

/-- C3 witness: Scenario C — from Scenario B's end state the retry round is
the single problem "a", PLAYING at cursor 0 with cleared wrong ids. -/
theorem sansu_C3_retry_narrowing_witness :
    (startRetryRound stateB).status = AppStatus.PLAYING ∧
    (startRetryRound stateB).problems ≠ [] ∧
    (startRetryRound stateB).currentIndex = 0 ∧
    (startRetryRound stateB).wrongProblemIds = [] ∧
    (startRetryRound stateB).isCorrect = none ∧
    (startRetryRound stateB).problems =
      stateB.problems.filter (fun p => stateB.wrongProblemIds.contains p.id) :=
  have h := (sansu_C3_retry_narrowing stateB).2.2.1 (by decide)
  ⟨h.1, h.2.1, h.2.2.1, h.2.2.2.1, h.2.2.2.2.1, h.2.2.2.2.2.1⟩

/-- C4: the index bound is violated on a reachable state — answer the single
problem of a round (scheduling the 1.2 s timer), reset before it fires, and
let the timer fire on the reset state: the cursor becomes 1 while the problem
list is empty, so `currentIndex ≤ len(problems)` fails. -/
theorem sansu_C4_index_bound_violation :
    ∃ s : SysState, ReachableState s ∧
      s.game.problems.length < s.game.currentIndex := by
  refine ⟨⟨timerStep resetGame, 0⟩, ?_, by decide⟩
  have h1 : Step ⟨initialGameState, 0⟩ ⟨uploadSuccess (buildProblems [rawA] 0), 0⟩ :=
    Step.upload_ok ⟨initialGameState, 0⟩ [rawA] 0
  have h2 : Step ⟨uploadSuccess (buildProblems [rawA] 0), 0⟩
      ⟨{ uploadSuccess (buildProblems [rawA] 0) with
          status := AppStatus.FEEDBACK, isCorrect := some true }, 0 + 1⟩ :=
    Step.answer ⟨uploadSuccess (buildProblems [rawA] 0), 0⟩ 1
      { uploadSuccess (buildProblems [rawA] 0) with
          status := AppStatus.FEEDBACK, isCorrect := some true } (by decide)
  have h3 : Step ⟨{ uploadSuccess (buildProblems [rawA] 0) with
      status := AppStatus.FEEDBACK, isCorrect := some true }, 1⟩ ⟨resetGame, 1⟩ :=
    Step.reset _
  have h4 : Step ⟨resetGame, 1⟩ ⟨timerStep resetGame, 1 - 1⟩ :=
    Step.timer_fire ⟨resetGame, 1⟩ (by decide)
  exact Relation.ReflTransGen.head h1
    (Relation.ReflTransGen.head h2
      (Relation.ReflTransGen.head h3 (Relation.ReflTransGen.single h4)))

/-- C8: serializing any game state to its snapshot and restoring it (status
forced to IDLE) reproduces `problems`, `currentIndex` and `wrongProblemIds`
exactly. -/
theorem sansu_C8_persistence_roundtrip (s : GameState) :
    ∃ r, restoreGameState (gameStateToJson s) = some r ∧
      r.problems = s.problems ∧
      r.currentIndex = s.currentIndex ∧
      r.wrongProblemIds = s.wrongProblemIds ∧
      r.status = AppStatus.IDLE :=
  ⟨{ s with status := AppStatus.IDLE },
    restore_gameStateToJson s, rfl, rfl, rfl, rfl⟩

end SansuQuest
